import Mathlib

/-!
Verification of `src/helpers/wallet.ts` of the walletconnect test wallet.

The module is a flat set of stateful helper functions over module-level
mutable variables (`path`, `entropy`, `mnemonic`, `activeIndex`,
`activeChainId`, `wallet`, `starkKeyPair`).  We embed it as explicit state
passing over a `WalletState` record.  External collaborators (the ethers
library, the STARK signature library, the key-value storage, the chain
metadata lookup and the random-byte source) are modelled as injective
uninterpreted constructions, following the scoping of the spec: the
cryptographic internals (BIP32/BIP39 derivation, Keccak hashing, curve
arithmetic) are external primitives and only their interface behaviour
matters here.

The two call cycles of the source
(`getData` -> `generateMnemonic` -> `getEntropy` -> `getData`, and
`getWallet` -> `initWallet` -> `updateWallet` -> `generateStarkwareKeyPair`
-> `getWallet`) are embedded with a fuel parameter; all theorems use fuel
values large enough that the fuel bound is never hit (the actual
recursion depth is bounded by a small constant independent of the state).
-/

namespace TestWallet

/-- Modelled from the spec: `constants.ts` is not under `src/`.  The spec
describes the derivation path as a fixed string template `base/index`; the
exact base string lives in the missing `constants.ts` and no claim depends
on its value. -/
def STANDARD_PATH : String := "m/44h/60h/0h/0"

/-- Modelled from the spec: storage cache key for the entropy entry
(`constants.ts` not under `src/`; only distinctness from the mnemonic key
matters). -/
def ENTROPY_KEY : String := "entropy"

/-- Modelled from the spec: storage cache key for the mnemonic entry
(`constants.ts` not under `src/`). -/
def MNEMONIC_KEY : String := "mnemonic"

/-- Modelled from the spec: default active account index
(`constants.ts` not under `src/`). -/
def DEFAULT_ACTIVE_INDEX : Int := 0

/-- Modelled from the spec: default active chain identifier
(`constants.ts` not under `src/`). -/
def DEFAULT_CHAIN_ID : Int := 1

/-- Lower-case hexadecimal digit for a value below 16, as produced by
`ethers.utils.hexlify`. -/
def hexDigit (n : Nat) : Char :=
  if n < 10 then Char.ofNat (48 + n) else Char.ofNat (87 + n)

/-- Two-digit hexadecimal rendering of one byte. -/
def hexByte (b : Nat) : String :=
  String.mk [hexDigit ((b / 16) % 16), hexDigit (b % 16)]

/-- Model of `ethers.utils.hexlify` on a byte array: `0x` followed by two
lower-case hex digits per byte. -/
def hexlify (bs : List Nat) : String :=
  "0x" ++ String.join (bs.map hexByte)

/-- Model of `ethers.utils.HDNode.entropyToMnemonic`: the external BIP39
encoding, an injective function of the entropy, modelled as an injective
tagging of its argument. -/
def entropyToMnemonic (e : String) : String :=
  "mnemonic(" ++ e ++ ")"

/-- Model of an `ethers.Wallet`: the external BIP32 derivation makes the
wallet a deterministic function of (mnemonic, derivation path), so the
wallet is represented by that pair. -/
structure EthersWallet where
  mnemonic : String
  path : String
  deriving DecidableEq, Repr

/-- Model of `ethers.Wallet.fromMnemonic`. -/
def Wallet.fromMnemonic (m p : String) : EthersWallet :=
  { mnemonic := m, path := p }

/-- The private key of the wallet: a deterministic injective function of the
derivation inputs (external BIP32 primitive). -/
def EthersWallet.privateKey (w : EthersWallet) : String :=
  "priv(" ++ w.mnemonic ++ "|" ++ w.path ++ ")"

/-- The public address of the wallet: a deterministic function of the
derivation inputs (external primitive). -/
def EthersWallet.address (w : EthersWallet) : String :=
  "addr(" ++ w.mnemonic ++ "|" ++ w.path ++ ")"

/-- Modelled from the spec: the STARK signature library collaborator
(`starkware.ts` is not under `src/`).  A key pair is a deterministic
function of the private key it was built from. -/
structure KeyPair where
  privHex : String
  deriving DecidableEq, Repr

/-- Modelled from the spec: `keyFromPrivate` of the STARK library. -/
def keyFromPrivate (priv : String) : KeyPair :=
  { privHex := priv }

/-- Modelled from the spec: a STARK signature, a deterministic function of
the key pair and the message (external curve arithmetic elided). -/
structure StarkSig where
  kp : KeyPair
  msg : String
  deriving DecidableEq, Repr

/-- Modelled from the spec: `sign` of the STARK library. -/
def starkSign (kp : KeyPair) (msg : String) : StarkSig :=
  { kp := kp, msg := msg }

/-- Modelled from the spec: `verify` of the STARK library. -/
def starkVerify (kp : KeyPair) (msg : String) (sig : StarkSig) : Bool :=
  decide (sig = starkSign kp msg)

/-- Modelled from the spec: result of the chain metadata lookup
collaborator (`utilities.ts` is not under `src/`). -/
structure ChainData where
  rpc_url : String
  deriving DecidableEq, Repr

/-- Modelled from the spec: `getChainData(chainId)` supplies the RPC
endpoint for a chain identifier. -/
def getChainData (chainId : Int) : ChainData :=
  { rpc_url := "rpc(" ++ toString chainId ++ ")" }

/-- Modelled from the spec: the key-value storage collaborator
(`local.ts` is not under `src/`): `get(key) -> string|null`. -/
def getLocal (key : String) (st : List (String × String)) : Option String :=
  match st.find? (fun p => p.1 == key) with
  | some p => some p.2
  | none => none

/-- Modelled from the spec: `set(key, value) -> void` of the key-value
storage collaborator; later writes shadow earlier ones. -/
def setLocal (key val : String) (st : List (String × String)) :
    List (String × String) :=
  (key, val) :: st

/-- JavaScript truthiness of a `string | null` value: `null` and the empty
string are falsy. -/
def truthyOpt : Option String → Bool
  | none => false
  | some v => !(v == "")

/-- JavaScript `===` between a number variable and a possibly-`undefined`
number parameter: comparison with `undefined` is `false`. -/
def jsEqNum (a : Int) (b : Option Int) : Bool :=
  match b with
  | some x => decide (a = x)
  | none => false

/-- A transaction payload (the source types it `any`; the tagged record of the spec:
 optional `from`, `gas`, `gasLimit`, `to`, `value`, `data`,
`nonce`). -/
structure Tx where
  fromAddr : Option String
  toAddr : Option String
  gas : Option Nat
  gasLimit : Option Nat
  value : Option Nat
  data : Option String
  nonce : Option Nat
  deriving DecidableEq, Repr

/-- Model of the transaction hash returned by the network provider: a
deterministic function of the signing wallet and the submitted payload. -/
structure TxHash where
  signer : EthersWallet
  tx : Tx
  deriving DecidableEq, Repr

/-- Model of the signed serialized transaction returned by
`ethers.Wallet.sign`. -/
structure SignedTx where
  signer : EthersWallet
  tx : Tx
  deriving DecidableEq, Repr

/-- Model of an ECDSA signature produced by
`ethers.utils.SigningKey.signDigest`: a function of the private key and
the digest bytes. -/
structure ECSig where
  priv : String
  digest : List Nat
  deriving DecidableEq, Repr

/-- Model of `signDigest`. -/
def signDigest (priv : String) (digest : List Nat) : ECSig :=
  { priv := priv, digest := digest }

/-- Model of `ethers.utils.joinSignature`: flat signature string. -/
def joinSignature (sig : ECSig) : String :=
  "sig(" ++ sig.priv ++ "|" ++ hexlify sig.digest ++ ")"

/-- UTF-8 bytes of a string, as `ethers.utils.toUtf8Bytes`. -/
def toUtf8Bytes (s : String) : List Nat :=
  s.toUTF8.toList.map (fun b => b.toNat)

/-- A hexadecimal digit character. -/
def isHexChar (c : Char) : Bool :=
  c.isDigit || ('a' ≤ c && c ≤ 'f') || ('A' ≤ c && c ≤ 'F')

/-- Model of `ethers.utils.isHexString` (no length argument): a string of
the form `0x` followed by hex digits (the `^0x[0-9A-Fa-f]*$` test). -/
def isHexString (s : String) : Bool :=
  match s.toList with
  | '0' :: 'x' :: rest => rest.all isHexChar
  | _ => false

/-- Numeric value of a hex digit character. -/
def hexCharVal (c : Char) : Nat :=
  if c.isDigit then c.toNat - 48
  else if 'a' ≤ c then c.toNat - 87
  else c.toNat - 55

/-- Hex digit pairs to bytes; `none` on an odd number of digits (ethers
`arrayify` throws on odd-length hex data). -/
def hexPairsToBytes : List Char → Option (List Nat)
  | [] => some []
  | [_] => none
  | c1 :: c2 :: rest =>
    match hexPairsToBytes rest with
    | some bs => some ((hexCharVal c1 * 16 + hexCharVal c2) :: bs)
    | none => none

/-- Model of `ethers.utils.arrayify` on a string argument: hex strings
decode to their bytes, odd-length hex data and non-hex strings throw
(`none`). -/
def arrayify (s : String) : Option (List Nat) :=
  if isHexString s then
    match s.toList with
    | _ :: _ :: rest => hexPairsToBytes rest
    | _ => none
  else none

/-- The personal-message digest of `ethers.Wallet.signMessage`:
Keccak-256 of the `"\x19Ethereum Signed Message:\n" ++ length` prefix
followed by the message bytes.  The external Keccak-256 primitive is
represented by its preimage (an injective stand-in; no claim uses hash
properties). -/
def hashPersonalMessage (bytes : List Nat) : List Nat :=
  let prefixBytes :=
    toUtf8Bytes ("\x19Ethereum Signed Message:\n" ++ toString bytes.length)
  prefixBytes ++ bytes

/-- Model of `ethers.Wallet.signMessage` applied to message bytes: the
personal-message convention (prefix + hash) followed by a digest
signature, joined to a flat signature string. -/
def walletSignMessage (w : EthersWallet) (bytes : List Nat) : String :=
  joinSignature (signDigest w.privateKey (hashPersonalMessage bytes))

/-- The module-level mutable state of `wallet.ts`, together with the
observable state of the external collaborators: the key-value `storage`, a
stream `rng` of pre-sampled outputs of the random-byte source, the
`submitted` transaction trace of the network provider, and the
`errorLog` of `console.error` reports. -/
structure WalletState where
  path : Option String
  entropy : Option String
  mnemonic : Option String
  activeIndex : Int
  activeChainId : Int
  wallet : Option EthersWallet
  starkKeyPair : Option KeyPair
  storage : List (String × String)
  rng : List (List Nat)
  submitted : List (EthersWallet × Tx)
  errorLog : List String
  deriving DecidableEq, Repr

/-- Errors: a thrown `Error` of the source, or fuel exhaustion of the
embedding (never reached at the fuel values used in the theorems). -/
inductive JsErr where
  | thrown (msg : String)
  | outOfFuel
  deriving DecidableEq, Repr

/-- Source `isWalletActive` (wallet.ts:21-26): returns the module `wallet`
variable when it is null, and `null` otherwise. -/
def isWalletActive (s : WalletState) : Option EthersWallet :=
  match s.wallet with
  | none => s.wallet
  | some _ => none

/-- Source `generateEntropy` (wallet.ts:69-72):
`entropy = hexlify(randomBytes(16))`, consuming one output of the
random-byte collaborator. -/
def generateEntropy (s : WalletState) : String × WalletState :=
  let e := hexlify (s.rng.headD [])
  (e, { s with entropy := some e, rng := s.rng.tail })

/-- Source `generatePath` (wallet.ts:64-67):
writes the module `path` variable and returns the substituted template. -/
def generatePath (index : Int) (s : WalletState) : String × WalletState :=
  let p := STANDARD_PATH ++ "/" ++ toString index
  (p, { s with path := some p })

mutual

/-- Source `getData` (wallet.ts:46-62): read the storage collaborator; on a falsy
value, generate by key (the `switch`) and persist; unknown keys throw. -/
def getData (fuel : Nat) (key : String) (s : WalletState) :
    Except JsErr String × WalletState :=
  if _h : fuel = 0 then (.error .outOfFuel, s)
  else
    let v0 := getLocal key s.storage
    if truthyOpt v0 then (.ok (v0.getD ""), s)
    else getDataGenerate (fuel - 1) key s

/-- The falsy branch of `getData` (wallet.ts:48-60): the `switch` on the
key followed by `setLocal(key, value)`. -/
def getDataGenerate (fuel : Nat) (key : String) (s : WalletState) :
    Except JsErr String × WalletState :=
  if _h : fuel = 0 then (.error .outOfFuel, s)
  else
    if key = ENTROPY_KEY then
      let (v, s1) := generateEntropy s
      (.ok v, { s1 with storage := setLocal key v s1.storage })
    else if key = MNEMONIC_KEY then
      match generateMnemonic (fuel - 1) s with
      | (.ok v, s1) => (.ok v, { s1 with storage := setLocal key v s1.storage })
      | (.error e, s1) => (.error e, s1)
    else (.error (.thrown ("Unknown data key: " ++ key)), s)

/-- Source `generateMnemonic` (wallet.ts:74-77):
`mnemonic = entropyToMnemonic(getEntropy())`. -/
def generateMnemonic (fuel : Nat) (s : WalletState) :
    Except JsErr String × WalletState :=
  if _h : fuel = 0 then (.error .outOfFuel, s)
  else
    match getEntropy (fuel - 1) s with
    | (.ok e, s1) =>
      let m := entropyToMnemonic e
      (.ok m, { s1 with mnemonic := some m })
    | (.error e, s1) => (.error e, s1)

/-- Source `getEntropy` (wallet.ts:90-92): `getData(ENTROPY_KEY)`. -/
def getEntropy (fuel : Nat) (s : WalletState) :
    Except JsErr String × WalletState :=
  if _h : fuel = 0 then (.error .outOfFuel, s)
  else getData (fuel - 1) ENTROPY_KEY s

end

/-- Source `getMnemonic` (wallet.ts:94-96): `getData(MNEMONIC_KEY)`. -/
def getMnemonic (fuel : Nat) (s : WalletState) :
    Except JsErr String × WalletState :=
  getData fuel MNEMONIC_KEY s

/-- Source `generateWallet` (wallet.ts:79-82):
`wallet = ethers.Wallet.fromMnemonic(getMnemonic(), generatePath(index))`
(arguments evaluated left to right). -/
def generateWallet (fuel : Nat) (index : Int) (s : WalletState) :
    Except JsErr EthersWallet × WalletState :=
  match getMnemonic fuel s with
  | (.ok m, s1) =>
    let (p, s2) := generatePath index s1
    let w := Wallet.fromMnemonic m p
    (.ok w, { s2 with wallet := some w })
  | (.error e, s1) => (.error e, s1)

mutual

/-- Source `getWallet` (wallet.ts:28-34): return the cached wallet unless it is
null, or the requested index `===` the active index, or the requested
chain `===` the active chain — in which case `initWallet` runs. -/
def getWallet (fuel : Nat) (index chainId : Option Int) (s : WalletState) :
    Except JsErr (Option EthersWallet) × WalletState :=
  if _h : fuel = 0 then (.error .outOfFuel, s)
  else
    match s.wallet with
    | none => initWallet (fuel - 1) index chainId s
    | some w =>
      if jsEqNum s.activeIndex index || jsEqNum s.activeChainId chainId then
        initWallet (fuel - 1) index chainId s
      else (.ok (some w), s)

/-- Source `initWallet` (wallet.ts:113-115): `updateWallet` with defaulted
parameters. -/
def initWallet (fuel : Nat) (index chainId : Option Int) (s : WalletState) :
    Except JsErr (Option EthersWallet) × WalletState :=
  if _h : fuel = 0 then (.error .outOfFuel, s)
  else
    updateWallet (fuel - 1) (index.getD DEFAULT_ACTIVE_INDEX)
      (chainId.getD DEFAULT_CHAIN_ID) s

/-- Source `updateWallet` (wallet.ts:117-126): set the active selection, look up
the RPC endpoint of the chain, derive the wallet, derive the STARK key pair,
and return the module `wallet` variable.  The call
`wallet.connect(provider)` of the source on line 124 discards the connected copy that
ethers returns, so the connection has no observable effect on the module
state. -/
def updateWallet (fuel : Nat) (index chainId : Int) (s : WalletState) :
    Except JsErr (Option EthersWallet) × WalletState :=
  if _h : fuel = 0 then (.error .outOfFuel, s)
  else
    let s1 := { s with activeIndex := index, activeChainId := chainId }
    let _rpcUrl := (getChainData chainId).rpc_url
    match generateWallet (fuel - 1) index s1 with
    | (.ok w, s2) =>
      let s3 := { s2 with wallet := some w }
      match generateStarkwareKeyPair (fuel - 1) s3 with
      | (.ok _, s4) => (.ok s4.wallet, s4)
      | (.error e, s4) => (.error e, s4)
    | (.error e, s2) => (.error e, s2)

/-- Source `generateStarkwareKeyPair` (wallet.ts:84-88):
`starkKeyPair = ec.keyFromPrivate((await getWallet()).privateKey, "hex")`.
A null wallet from `getWallet` would fault on the `.privateKey` access. -/
def generateStarkwareKeyPair (fuel : Nat) (s : WalletState) :
    Except JsErr KeyPair × WalletState :=
  if _h : fuel = 0 then (.error .outOfFuel, s)
  else
    match getWallet (fuel - 1) none none s with
    | (.ok (some w), s1) =>
      let kp := keyFromPrivate w.privateKey
      (.ok kp, { s1 with starkKeyPair := some kp })
    | (.ok none, s1) =>
      (.error (.thrown "TypeError: cannot read privateKey of null"), s1)
    | (.error e, s1) => (.error e, s1)

end

/-- Source `getStakwareKeyPair` (wallet.ts:98-104) (typo in the source name kept):
return the cached STARK key pair, generating it if absent. -/
def getStakwareKeyPair (fuel : Nat) (s : WalletState) :
    Except JsErr KeyPair × WalletState :=
  match s.starkKeyPair with
  | some kp => (.ok kp, s)
  | none => generateStarkwareKeyPair fuel s

/-- The loop body of `getAccounts` (wallet.ts:39-42): derive index `i`,
push its address, continue.  The local `wallet` binding of the source
shadows the module variable only for reads; `generateWallet` still
assigns the module variable. -/
def getAccountsLoop (fuel : Nat) (count i : Nat) (accounts : List String)
    (s : WalletState) : Except JsErr (List String) × WalletState :=
  if _h : i < count then
    match generateWallet fuel (i : Int) s with
    | (.ok w, s1) => getAccountsLoop fuel count (i + 1) (accounts ++ [w.address]) s1
    | (.error e, s1) => (.error e, s1)
  else (.ok accounts, s)
termination_by count - i

/-- Source `getAccounts` (wallet.ts:36-44). -/
def getAccounts (fuel : Nat) (count : Nat) (s : WalletState) :
    Except JsErr (List String) × WalletState :=
  getAccountsLoop fuel count 0 [] s

/-- Source `sendTransaction` (wallet.ts:128-150): with an active wallet, warn on
a truthy mismatched `from`, strip a truthy `from` (the guards at lines 130
and 134 are JS truthiness tests, so an empty-string `from` is neither
warned about nor stripped), rename `gas` to `gasLimit`, submit via the
network collaborator and return the hash; otherwise report
`No Active Account` and return null. -/
def sendTransaction (transaction : Tx) (s : WalletState) :
    Except JsErr (Option TxHash) × WalletState :=
  match s.wallet with
  | some w =>
    let s0 :=
      match transaction.fromAddr with
      | some f =>
        if !(f == "") && !(f.toLower == w.address.toLower) then
          { s with errorLog :=
              s.errorLog ++ ["Transaction request From doesn't match active account"] }
        else s
      | none => s
    let tx1 :=
      match transaction.fromAddr with
      | some f =>
        if !(f == "") then { transaction with fromAddr := none } else transaction
      | none => transaction
    let tx2 :=
      if tx1.gas.isSome then { tx1 with gasLimit := tx1.gas, gas := none }
      else tx1
    (.ok (some { signer := w, tx := tx2 }),
      { s0 with submitted := s0.submitted ++ [(w, tx2)] })
  | none =>
    (.ok none, { s with errorLog := s.errorLog ++ ["No Active Account"] })

/-- Source `signTransaction` (wallet.ts:152-163): with an active wallet, strip
a truthy `from` (`if (data && data.from)` at line 154 is a JS truthiness
test, so an empty-string `from` stays in place) and return
`wallet.sign(data)`; otherwise report and return null. -/
def signTransaction (data : Tx) (s : WalletState) :
    Except JsErr (Option SignedTx) × WalletState :=
  match s.wallet with
  | some w =>
    let d1 :=
      match data.fromAddr with
      | some f => if !(f == "") then { data with fromAddr := none } else data
      | none => data
    (.ok (some { signer := w, tx := d1 }), s)
  | none =>
    (.ok none, { s with errorLog := s.errorLog ++ ["No Active Account"] })

/-- Source `signMessage` (wallet.ts:165-175): with an active wallet, sign the
arrayified digest directly with the signing key and join the signature;
otherwise report and return null. -/
def signMessage (data : String) (s : WalletState) :
    Except JsErr (Option String) × WalletState :=
  match s.wallet with
  | some w =>
    match arrayify data with
    | some bytes =>
      (.ok (some (joinSignature (signDigest w.privateKey bytes))), s)
    | none => (.error (.thrown "invalid arrayify value"), s)
  | none =>
    (.ok none, { s with errorLog := s.errorLog ++ ["No Active Account"] })

/-- Source `signPersonalMessage` (wallet.ts:177-187): with an active wallet,
arrayify hex-string inputs, pass text inputs through, and sign under the
personal-message convention; otherwise report and return null. -/
def signPersonalMessage (message : String) (s : WalletState) :
    Except JsErr (Option String) × WalletState :=
  match s.wallet with
  | some w =>
    if isHexString message then
      match arrayify message with
      | some bytes => (.ok (some (walletSignMessage w bytes)), s)
      | none => (.error (.thrown "hex data is odd-length"), s)
    else (.ok (some (walletSignMessage w (toUtf8Bytes message))), s)
  | none =>
    (.ok none, { s with errorLog := s.errorLog ++ ["No Active Account"] })

/-- Source `starkwareSign` (wallet.ts:189-192). -/
def starkwareSign (fuel : Nat) (msg : String) (s : WalletState) :
    Except JsErr StarkSig × WalletState :=
  match getStakwareKeyPair fuel s with
  | (.ok kp, s1) => (.ok (starkSign kp msg), s1)
  | (.error e, s1) => (.error e, s1)

/-- Source `starkwareVerify` (wallet.ts:194-197). -/
def starkwareVerify (fuel : Nat) (msg : String) (sig : StarkSig)
    (s : WalletState) : Except JsErr Bool × WalletState :=
  match getStakwareKeyPair fuel s with
  | (.ok kp, s1) => (.ok (starkVerify kp msg sig), s1)
  | (.error e, s1) => (.error e, s1)

/-- A fully blank module state: nothing cached, empty storage, the default
active selection. -/
def emptyState : WalletState :=
  { path := none, entropy := none, mnemonic := none, activeIndex := 0,
    activeChainId := 1, wallet := none, starkKeyPair := none, storage := [],
    rng := [], submitted := [], errorLog := [] }

/-- A concrete sample wallet for closed test states. -/
def w0 : EthersWallet := { mnemonic := "seed words", path := "m/x" }

/-- A state whose only non-blank component is an active wallet. -/
def csW : WalletState := { emptyState with wallet := some w0 }

/-- A state with an active wallet, active selection (0, 1) and a cached
mnemonic in storage. -/
def cs1 : WalletState :=
  { emptyState with wallet := some w0, storage := [(MNEMONIC_KEY, "words")] }

/-- A state with no derived account at all but a cached mnemonic in
storage. -/
def cs2 : WalletState := { emptyState with storage := [(MNEMONIC_KEY, "words")] }

/-- A concrete transaction payload for closed test inputs. -/
def tx0 : Tx :=
  { fromAddr := some "0xA", toAddr := some "0xB", gas := some 21000,
    gasLimit := none, value := none, data := none, nonce := none }

/-- A concrete transaction payload whose `from` field is the empty string
(present but falsy under JS truthiness). -/
def txE : Tx :=
  { fromAddr := some "", toAddr := some "0xB", gas := some 21000,
    gasLimit := none, value := none, data := none, nonce := none }

/-- A string with a non-empty prefix is not empty. -/
lemma append_left_ne_empty (a b : String) (ha : a.length ≠ 0) :
    ((a ++ b) == "") = false := by
  rw [beq_eq_false_iff_ne]
  intro h
  have := congrArg String.length h
  rw [String.length_append] at this
  simp at this
  omega

/-- Hexlified byte strings are truthy (they carry the `0x` prefix). -/
lemma hexlify_truthy (bs : List Nat) : ((hexlify bs) == "") = false := by
  apply append_left_ne_empty
  decide

/-- Generated mnemonics are truthy. -/
lemma entropyToMnemonic_truthy (e : String) :
    ((entropyToMnemonic e) == "") = false := by
  unfold entropyToMnemonic
  rw [String.append_assoc]
  apply append_left_ne_empty
  decide

/-- A truthy `string | null` value is a non-empty string. -/
lemma truthyOpt_true (o : Option String) (h : truthyOpt o = true) :
    ∃ v, o = some v ∧ (v == "") = false := by
  cases o with
  | none => simp [truthyOpt] at h
  | some v => exact ⟨v, rfl, by simpa [truthyOpt] using h⟩

/-- Reading a key right after writing it yields the written value. -/
lemma getLocal_setLocal (key v : String) (st : List (String × String)) :
    getLocal key (setLocal key v st) = some v := by
  simp [getLocal, setLocal, List.find?]

/-- With a truthy stored value, `getData` returns it and changes
nothing. -/
lemma getData_cached (key v : String) (s : WalletState)
    (h1 : getLocal key s.storage = some v) (h2 : (v == "") = false) :
    getData 8 key s = (.ok v, s) := by
  simp [getData, truthyOpt, h1, h2]

/-- Characterization of `getData` at the entropy key: it always succeeds
with a truthy value, stores that value, and touches no other module
state. -/
lemma getData_entropy (f : Nat) (hf : 2 ≤ f) (s : WalletState) :
    ∃ v s', getData f ENTROPY_KEY s = (.ok v, s') ∧ (v == "") = false ∧
      getLocal ENTROPY_KEY s'.storage = some v ∧
      s'.activeIndex = s.activeIndex ∧ s'.activeChainId = s.activeChainId ∧
      s'.wallet = s.wallet ∧ s'.starkKeyPair = s.starkKeyPair ∧
      s'.submitted = s.submitted ∧ s'.errorLog = s.errorLog := by
  have h0 : f ≠ 0 := by omega
  have h1 : f - 1 ≠ 0 := by omega
  cases h : truthyOpt (getLocal ENTROPY_KEY s.storage) with
  | true =>
    obtain ⟨v, hv, hne⟩ := truthyOpt_true _ h
    exact ⟨v, s, by simp [getData, h0, hv, truthyOpt, hne], hne, hv,
      rfl, rfl, rfl, rfl, rfl, rfl⟩
  | false =>
    exact ⟨hexlify (s.rng.headD []),
      { s with entropy := some (hexlify (s.rng.headD [])), rng := s.rng.tail, storage := setLocal ENTROPY_KEY (hexlify (s.rng.headD [])) s.storage },
      by simp [getData, h0, h, getDataGenerate, h1, generateEntropy],
      hexlify_truthy _, by simp [getLocal_setLocal], rfl, rfl, rfl, rfl, rfl, rfl⟩

/-- Characterization of `getData` at the mnemonic key (fuel 8): it always
succeeds with a truthy value, stores that value, and touches no other
module state. -/
lemma getData_mnemonic8 (s : WalletState) :
    ∃ v s', getData 8 MNEMONIC_KEY s = (.ok v, s') ∧ (v == "") = false ∧
      getLocal MNEMONIC_KEY s'.storage = some v ∧
      s'.activeIndex = s.activeIndex ∧ s'.activeChainId = s.activeChainId ∧
      s'.wallet = s.wallet ∧ s'.starkKeyPair = s.starkKeyPair ∧
      s'.submitted = s.submitted ∧ s'.errorLog = s.errorLog := by
  have hkey : ¬ (MNEMONIC_KEY = ENTROPY_KEY) := by decide
  cases h : truthyOpt (getLocal MNEMONIC_KEY s.storage) with
  | true =>
    obtain ⟨v, hv, hne⟩ := truthyOpt_true _ h
    exact ⟨v, s, by simp [getData, hv, truthyOpt, hne], hne, hv,
      rfl, rfl, rfl, rfl, rfl, rfl⟩
  | false =>
    obtain ⟨e, s1, he, hene, heloc, hai, hac, hw, hsk, hsub, herr⟩ :=
      getData_entropy 4 (by omega) s
    refine ⟨entropyToMnemonic e,
      { s1 with mnemonic := some (entropyToMnemonic e), storage := setLocal MNEMONIC_KEY (entropyToMnemonic e) s1.storage },
      ?_, entropyToMnemonic_truthy e, ?_, ?_, ?_, ?_, ?_, ?_, ?_⟩
    · simp [getData, h, getDataGenerate, hkey, generateMnemonic, getEntropy, he]
    · simp [getLocal_setLocal]
    · simpa using hai
    · simpa using hac
    · simpa using hw
    · simpa using hsk
    · simpa using hsub
    · simpa using herr

/-- Characterization of `generateWallet` at fuel 8: it derives the wallet
for the requested index from the current mnemonic, caches it in the
module `wallet` variable, and leaves the active selection, the STARK key
pair, the submission trace and the error log unchanged. -/
lemma generateWallet8 (i : Int) (s : WalletState) :
    ∃ m s', generateWallet 8 i s =
        (.ok (Wallet.fromMnemonic m (STANDARD_PATH ++ "/" ++ toString i)), s') ∧
      s'.wallet = some (Wallet.fromMnemonic m (STANDARD_PATH ++ "/" ++ toString i)) ∧
      s'.activeIndex = s.activeIndex ∧ s'.activeChainId = s.activeChainId ∧
      s'.starkKeyPair = s.starkKeyPair ∧
      s'.submitted = s.submitted ∧ s'.errorLog = s.errorLog := by
  obtain ⟨m, s1, hm, hmne, hloc, hai, hac, hw, hsk, hsub, herr⟩ := getData_mnemonic8 s
  refine ⟨m,
    { s1 with path := some (STANDARD_PATH ++ "/" ++ toString i), wallet := some (Wallet.fromMnemonic m (STANDARD_PATH ++ "/" ++ toString i)) },
    ?_, rfl, ?_, ?_, ?_, ?_, ?_⟩
  · simp [generateWallet, getMnemonic, hm, generatePath]
  · simpa using hai
  · simpa using hac
  · simpa using hsk
  · simpa using hsub
  · simpa using herr

/-- Characterization of `updateWallet` at fuel 9: it succeeds, sets the
active selection to the arguments, caches the wallet derived at the
requested index, and caches the STARK key pair built from the private key
of exactly that wallet. -/
lemma updateWallet9 (i c : Int) (s : WalletState) :
    ∃ w s', updateWallet 9 i c s = (.ok (some w), s') ∧
      s'.wallet = some w ∧
      s'.starkKeyPair = some (keyFromPrivate w.privateKey) ∧
      s'.activeIndex = i ∧ s'.activeChainId = c ∧
      w.path = STANDARD_PATH ++ "/" ++ toString i ∧
      s'.submitted = s.submitted ∧ s'.errorLog = s.errorLog := by
  obtain ⟨m, s2, hgw, hwal, hai, hac, hsk, hsub, herr⟩ :=
    generateWallet8 i { s with activeIndex := i, activeChainId := c }
  refine ⟨Wallet.fromMnemonic m (STANDARD_PATH ++ "/" ++ toString i),
    { s2 with wallet := some (Wallet.fromMnemonic m (STANDARD_PATH ++ "/" ++ toString i)), starkKeyPair := some (keyFromPrivate (Wallet.fromMnemonic m (STANDARD_PATH ++ "/" ++ toString i)).privateKey) },
    ?_, rfl, rfl, ?_, ?_, rfl, ?_, ?_⟩
  · simp [updateWallet, hgw, generateStarkwareKeyPair, getWallet, jsEqNum]
  · simpa using hai
  · simpa using hac
  · simpa using hsub
  · simpa using herr

/-- Characterization of the `getAccounts` loop at fuel 8: running the
remaining iterations succeeds, leaves the active selection and the STARK
key pair untouched, and leaves the module `wallet` holding the account of
the last derived index. -/
lemma getAccountsLoop8 (n : Nat) :
    ∀ (i : Nat) (acc : List String) (s : WalletState), 1 ≤ n →
    ∃ l s', getAccountsLoop 8 (i + n) i acc s = (.ok l, s') ∧
      s'.activeIndex = s.activeIndex ∧ s'.activeChainId = s.activeChainId ∧
      s'.starkKeyPair = s.starkKeyPair ∧
      ∃ m, s'.wallet = some (Wallet.fromMnemonic m (STANDARD_PATH ++ "/" ++ toString ((i + n - 1 : Nat) : Int))) := by
  induction n with
  | zero => intro i acc s h; omega
  | succ k ih =>
    intro i acc s _
    obtain ⟨m, s1, hgw, hwal, hai, hac, hsk, hsub, herr⟩ := generateWallet8 (i : Int) s
    have hlt : i < i + (k + 1) := by omega
    by_cases hk : 1 ≤ k
    · obtain ⟨l, s', hloop, hai', hac', hsk', m', hw'⟩ :=
        ih (i + 1) (acc ++ [(Wallet.fromMnemonic m (STANDARD_PATH ++ "/" ++ toString (i : Int))).address]) s1 hk
      have hcount : (i + 1) + k = i + (k + 1) := by omega
      rw [hcount] at hloop
      have hidx : (i + 1) + k - 1 = i + (k + 1) - 1 := by omega
      rw [hidx] at hw'
      refine ⟨l, s', ?_, by rw [hai', hai], by rw [hac', hac],
        by rw [hsk', hsk], ⟨m', hw'⟩⟩
      rw [getAccountsLoop, dif_pos hlt]
      simp only [hgw]
      exact hloop
    · have hk0 : k = 0 := by omega
      subst hk0
      refine ⟨acc ++ [(Wallet.fromMnemonic m (STANDARD_PATH ++ "/" ++ toString (i : Int))).address],
        s1, ?_, hai, hac, hsk, ⟨m, by simpa using hwal⟩⟩
      rw [getAccountsLoop, dif_pos hlt]
      simp only [hgw]
      rw [getAccountsLoop, dif_neg (by omega : ¬ (i + 1 < i + (0 + 1)))]

/-- C1: the claim states that `getWallet(index, chainId)` returns the
cached wallet unchanged exactly when one is cached and the request does
not differ from the active selection, and re-derives exactly when no
wallet is cached or the request differs.  The code inverts the
comparison (`===` instead of difference): in state `cs1` (cached wallet,
active selection `(0, 1)`), the request `(5, 7)` differs on both
components yet the call returns the cached wallet with the state
untouched, while the request `(0, 1)` equals the active selection yet
triggers a full re-derivation (visible here through the freshly written
STARK key pair). -/
theorem getWallet_inverted_rederivation :
    getWallet 11 (some 5) (some 7) cs1 = (.ok (some w0), cs1) ∧
    (getWallet 11 (some 0) (some 1) cs1).2.starkKeyPair =
      some (keyFromPrivate (Wallet.fromMnemonic "words" (STANDARD_PATH ++ "/" ++ toString (0 : Int))).privateKey) := by
  constructor
  · rw [getWallet]
    simp [cs1, emptyState, w0, jsEqNum]
  · simp [getWallet, initWallet, updateWallet, generateWallet, getMnemonic, getData,
      getDataGenerate, generatePath, generateEntropy, generateStarkwareKeyPair, getLocal,
      setLocal, truthyOpt, jsEqNum, cs1, emptyState, w0, MNEMONIC_KEY, ENTROPY_KEY, List.find?]

/-- C2 counterexample: the claim states that every signing operation
called with no derived account returns null/empty.  `starkwareSign`
does not: in state `cs2` (no wallet, no STARK key pair), it lazily
derives the default account and returns a real signature, leaving a
derived wallet behind. -/
theorem starkwareSign_derives_account :
    (starkwareSign 12 "msg" cs2).1 =
      .ok (starkSign (keyFromPrivate (Wallet.fromMnemonic "words" (STANDARD_PATH ++ "/" ++ toString DEFAULT_ACTIVE_INDEX)).privateKey) "msg") ∧
    ((starkwareSign 12 "msg" cs2).2.wallet).isSome = true := by
  constructor <;>
    simp [starkwareSign, getStakwareKeyPair, generateStarkwareKeyPair, getWallet, initWallet,
      updateWallet, generateWallet, getMnemonic, getData, getDataGenerate, generatePath,
      generateEntropy, getLocal, setLocal, truthyOpt, jsEqNum, cs2, emptyState,
      MNEMONIC_KEY, ENTROPY_KEY, List.find?]

/-- C2 (amended): with no active wallet, `sendTransaction`,
`signTransaction`, `signMessage` and `signPersonalMessage` return null
without throwing, only appending the `No Active Account` report;
`starkwareSign` and `starkwareVerify` instead lazily derive the default
account and its STARK key pair and return a real result (a signature,
respectively a verification verdict), never null. -/
theorem signing_ops_no_active_account (s : WalletState) (tx d : Tx)
    (dg pm sm sv : String) (sigv : StarkSig) (hw : s.wallet = none) :
    sendTransaction tx s = (.ok none, { s with errorLog := s.errorLog ++ ["No Active Account"] }) ∧
    signTransaction d s = (.ok none, { s with errorLog := s.errorLog ++ ["No Active Account"] }) ∧
    signMessage dg s = (.ok none, { s with errorLog := s.errorLog ++ ["No Active Account"] }) ∧
    signPersonalMessage pm s = (.ok none, { s with errorLog := s.errorLog ++ ["No Active Account"] }) ∧
    (s.starkKeyPair = none →
      ∃ kp s', starkwareSign 12 sm s = (.ok (starkSign kp sm), s') ∧
        s'.starkKeyPair = some kp ∧ s'.wallet.isSome = true) ∧
    (s.starkKeyPair = none →
      ∃ kp s', starkwareVerify 12 sv sigv s = (.ok (starkVerify kp sv sigv), s') ∧
        s'.starkKeyPair = some kp ∧ s'.wallet.isSome = true) := by
  obtain ⟨w, s', heq, hwal, hstark, hai, hac, hp, hsub, herr⟩ :=
    updateWallet9 DEFAULT_ACTIVE_INDEX DEFAULT_CHAIN_ID s
  refine ⟨?_, ?_, ?_, ?_, ?_, ?_⟩
  · simp [sendTransaction, hw]
  · simp [signTransaction, hw]
  · simp [signMessage, hw]
  · simp [signPersonalMessage, hw]
  · intro hsk
    refine ⟨keyFromPrivate w.privateKey,
      { s' with starkKeyPair := some (keyFromPrivate w.privateKey) }, ?_, rfl, ?_⟩
    · simp [starkwareSign, getStakwareKeyPair, hsk, generateStarkwareKeyPair, getWallet, hw,
        initWallet, heq]
    · simp [hwal]
  · intro hsk
    refine ⟨keyFromPrivate w.privateKey,
      { s' with starkKeyPair := some (keyFromPrivate w.privateKey) }, ?_, rfl, ?_⟩
    · simp [starkwareVerify, getStakwareKeyPair, hsk, generateStarkwareKeyPair, getWallet, hw,
        initWallet, heq]
    · simp [hwal]

/-- C2 witness: the amended behaviour at the blank state with a concrete
transaction, concrete messages and a concrete candidate signature. -/
theorem signing_ops_no_active_account_witness :
    sendTransaction tx0 emptyState = (.ok none, { emptyState with errorLog := emptyState.errorLog ++ ["No Active Account"] }) ∧
    signTransaction tx0 emptyState = (.ok none, { emptyState with errorLog := emptyState.errorLog ++ ["No Active Account"] }) ∧
    signMessage "0x00" emptyState = (.ok none, { emptyState with errorLog := emptyState.errorLog ++ ["No Active Account"] }) ∧
    signPersonalMessage "hello" emptyState = (.ok none, { emptyState with errorLog := emptyState.errorLog ++ ["No Active Account"] }) ∧
    (emptyState.starkKeyPair = none →
      ∃ kp s', starkwareSign 12 "msg" emptyState = (.ok (starkSign kp "msg"), s') ∧
        s'.starkKeyPair = some kp ∧ s'.wallet.isSome = true) ∧
    (emptyState.starkKeyPair = none →
      ∃ kp s', starkwareVerify 12 "msg" (starkSign (keyFromPrivate "0xk") "msg") emptyState =
          (.ok (starkVerify kp "msg" (starkSign (keyFromPrivate "0xk") "msg")), s') ∧
        s'.starkKeyPair = some kp ∧ s'.wallet.isSome = true) :=
  signing_ops_no_active_account emptyState tx0 tx0 "0x00" "hello" "msg" "msg"
    (starkSign (keyFromPrivate "0xk") "msg") rfl

/-- C3: after every completed re-derivation `updateWallet(i, c)`, the
cached STARK key pair is built from the private key of the cached wallet,
which is the wallet derived for the now-active index and chain. -/
theorem updateWallet_stark_consistency (i c : Int) (s : WalletState) :
    ∃ w s', updateWallet 9 i c s = (.ok (some w), s') ∧
      s'.wallet = some w ∧
      s'.starkKeyPair = some (keyFromPrivate w.privateKey) ∧
      s'.activeIndex = i ∧ s'.activeChainId = c ∧
      w.path = STANDARD_PATH ++ "/" ++ toString i := by
  obtain ⟨w, s', h1, h2, h3, h4, h5, h6, _, _⟩ := updateWallet9 i c s
  exact ⟨w, s', h1, h2, h3, h4, h5, h6⟩

/-- C4: in every state, a second call to `getEntropy` returns exactly the
value and state of the first call (identical value, no further generation
and no further storage write), and likewise for `getMnemonic`; both calls
succeed. -/
theorem entropy_mnemonic_idempotent (s : WalletState) :
    getEntropy 9 ((getEntropy 9 s).2) = getEntropy 9 s ∧
    (∃ v, (getEntropy 9 s).1 = .ok v) ∧
    getMnemonic 8 ((getMnemonic 8 s).2) = getMnemonic 8 s ∧
    (∃ v, (getMnemonic 8 s).1 = .ok v) := by
  have he9 : ∀ t : WalletState, getEntropy 9 t = getData 8 ENTROPY_KEY t := by
    intro t
    rw [getEntropy]
    norm_num
  have hm8 : ∀ t : WalletState, getMnemonic 8 t = getData 8 MNEMONIC_KEY t :=
    fun _ => rfl
  obtain ⟨v, s1, heq, hne, hloc, _, _, _, _, _, _⟩ := getData_entropy 8 (by omega) s
  obtain ⟨v2, s2, heq2, hne2, hloc2, _, _, _, _, _, _⟩ := getData_mnemonic8 s
  refine ⟨?_, ⟨v, by rw [he9, heq]⟩, ?_, ⟨v2, by rw [hm8, heq2]⟩⟩
  · rw [he9, he9, heq]
    simpa [heq] using getData_cached ENTROPY_KEY v s1 hloc hne
  · rw [hm8, hm8, heq2]
    simpa [heq2] using getData_cached MNEMONIC_KEY v2 s2 hloc2 hne2

/-- C5: for a key other than the entropy and mnemonic keys with no cached
value, `getData` throws the `Unknown data key` error and performs no
storage write (the state is returned unchanged). -/
theorem getData_unknown_key (key : String) (s : WalletState)
    (h1 : key ≠ ENTROPY_KEY) (h2 : key ≠ MNEMONIC_KEY)
    (h3 : getLocal key s.storage = none) :
    getData 8 key s = (.error (.thrown ("Unknown data key: " ++ key)), s) := by
  simp [getData, getDataGenerate, h1, h2, h3, truthyOpt]

/-- C5 witness: the unknown key `chainid` on the blank state. -/
theorem getData_unknown_key_witness :
    getData 8 "chainid" emptyState =
      (.error (.thrown ("Unknown data key: " ++ "chainid")), emptyState) :=
  getData_unknown_key "chainid" emptyState (by decide) (by decide) rfl

/-- C6 counterexample: the claim states that any `from` field is stripped
before submission, but the guard at wallet.ts:134 is a JS truthiness
test: the transaction `txE`, whose `from` is the (falsy) empty string,
is submitted with the `from` key retained. -/
theorem sendTransaction_empty_from_retained :
    (sendTransaction txE csW).2.submitted =
      [(w0, { fromAddr := some "", toAddr := some "0xB", gas := none,
              gasLimit := some 21000, value := none, data := none,
              nonce := none })] := by
  simp [sendTransaction, csW, emptyState, w0, txE]

/-- C6 (amended): with an active wallet, a transaction carrying `gas` and
no `gasLimit` is submitted with `gasLimit` equal to the original `gas`
value and no `gas` field; the `from` field is stripped exactly when it is
truthy (a non-empty string), while a falsy `from` (absent or the empty
string) is passed through unchanged; all other fields are unchanged. -/
theorem sendTransaction_gas_shim (s : WalletState) (w : EthersWallet)
    (tx : Tx) (g : Nat) (hw : s.wallet = some w) (hg : tx.gas = some g)
    (hgl : tx.gasLimit = none) :
    ∃ tx', (sendTransaction tx s).1 = .ok (some { signer := w, tx := tx' }) ∧
      (sendTransaction tx s).2.submitted = s.submitted ++ [(w, tx')] ∧
      tx'.gasLimit = some g ∧ tx'.gas = none ∧
      tx'.fromAddr = (if truthyOpt tx.fromAddr then none else tx.fromAddr) ∧
      tx'.toAddr = tx.toAddr ∧ tx'.value = tx.value ∧
      tx'.data = tx.data ∧ tx'.nonce = tx.nonce := by
  obtain ⟨f, t, gas, gl, v, d, n⟩ := tx
  simp at hg hgl
  subst hg
  subst hgl
  cases f with
  | none =>
    refine ⟨{ fromAddr := none, toAddr := t, gas := none, gasLimit := some g, value := v, data := d, nonce := n }, ?_, ?_, rfl, rfl, ?_, rfl, rfl, rfl, rfl⟩
    · simp [sendTransaction, hw]
    · simp [sendTransaction, hw]
    · simp [truthyOpt]
  | some a =>
    by_cases ha : a = ""
    · subst ha
      refine ⟨{ fromAddr := some "", toAddr := t, gas := none, gasLimit := some g, value := v, data := d, nonce := n }, ?_, ?_, rfl, rfl, ?_, rfl, rfl, rfl, rfl⟩
      · simp [sendTransaction, hw]
      · simp [sendTransaction, hw]
      · simp [truthyOpt]
    · have hbeq : (a == "") = false := beq_eq_false_iff_ne.mpr ha
      refine ⟨{ fromAddr := none, toAddr := t, gas := none, gasLimit := some g, value := v, data := d, nonce := n }, ?_, ?_, rfl, rfl, ?_, rfl, rfl, rfl, rfl⟩
      · simp [sendTransaction, hw, hbeq]
      · simp only [sendTransaction, hw]
        simp [hbeq]
        split_ifs <;> simp
      · simp [truthyOpt, hbeq]

/-- C6 witness: the concrete transaction `tx0` (with a truthy `from`,
`gas = 21000`, no `gasLimit`) in the concrete active-wallet state. -/
theorem sendTransaction_gas_shim_witness :
    ∃ tx', (sendTransaction tx0 csW).1 = .ok (some { signer := w0, tx := tx' }) ∧
      (sendTransaction tx0 csW).2.submitted = csW.submitted ++ [(w0, tx')] ∧
      tx'.gasLimit = some 21000 ∧ tx'.gas = none ∧
      tx'.fromAddr = (if truthyOpt tx0.fromAddr then none else tx0.fromAddr) ∧
      tx'.toAddr = tx0.toAddr ∧ tx'.value = tx0.value ∧
      tx'.data = tx0.data ∧ tx'.nonce = tx0.nonce :=
  sendTransaction_gas_shim csW w0 tx0 21000 rfl rfl rfl

/-- C7 counterexample: the claim states that `generatePath` modifies no
module state, but it writes the module `path` variable: on the blank
state the returned state differs from the input state. -/
theorem generatePath_writes_state : (generatePath 7 emptyState).2 ≠ emptyState := by
  intro h
  have := congrArg WalletState.path h
  simp [generatePath, emptyState] at this

/-- C7 (amended): `generatePath` is a pure total function of the index up
to its single module-state effect: it returns the fixed template with the
index substituted, never fails, and its only state change is overwriting
the module `path` variable with the returned string (all other fields are
unchanged). -/
theorem generatePath_pure_except_path (i : Int) (s : WalletState) :
    generatePath i s =
      (STANDARD_PATH ++ "/" ++ toString i,
        { s with path := some (STANDARD_PATH ++ "/" ++ toString i) }) := rfl

/-- C8: with an active wallet, `signPersonalMessage` signs the hex-decoded
bytes of a hex-string input and the UTF-8 bytes of any other input, both
under the personal-message convention applied by `walletSignMessage`. -/
theorem signPersonalMessage_dispatch (s : WalletState) (w : EthersWallet)
    (m : String) (hw : s.wallet = some w) :
    (isHexString m = true → ∀ bytes, arrayify m = some bytes →
      signPersonalMessage m s = (.ok (some (walletSignMessage w bytes)), s)) ∧
    (isHexString m = false →
      signPersonalMessage m s = (.ok (some (walletSignMessage w (toUtf8Bytes m))), s)) := by
  constructor
  · intro hhex bytes hb
    simp [signPersonalMessage, hw, hhex, hb]
  · intro hhex
    simp [signPersonalMessage, hw, hhex]

/-- C8 witness: the hex input `0x6869` decodes to the bytes `[104, 105]`
before signing, and the plain-text input `hi` is signed as its UTF-8
bytes. -/
theorem signPersonalMessage_dispatch_witness :
    signPersonalMessage "0x6869" csW = (.ok (some (walletSignMessage w0 [104, 105])), csW) ∧
    signPersonalMessage "hi" csW = (.ok (some (walletSignMessage w0 (toUtf8Bytes "hi"))), csW) := by
  have h1 := signPersonalMessage_dispatch csW w0 "0x6869" rfl
  have h2 := signPersonalMessage_dispatch csW w0 "hi" rfl
  exact ⟨h1.1 (by decide) [104, 105] (by decide), h2.2 (by decide)⟩

/-- C9: in every state `isWalletActive` returns a null (falsy) value —
the null wallet when none is active and null when one is — so its result
never distinguishes the two cases and is never truthy. -/
theorem isWalletActive_always_none (s : WalletState) : isWalletActive s = none := by
  unfold isWalletActive
  cases s.wallet <;> rfl

/-- C10: for every `count ≥ 1`, `getAccounts` succeeds and overwrites the
module `wallet` with the account derived at index `count - 1`, while the
active index, the active chain and the cached STARK key pair are left
unchanged. -/
theorem getAccounts_overwrites_wallet (count : Nat) (s : WalletState)
    (h : 1 ≤ count) :
    ∃ l s', getAccounts 8 count s = (.ok l, s') ∧
      s'.activeIndex = s.activeIndex ∧ s'.activeChainId = s.activeChainId ∧
      s'.starkKeyPair = s.starkKeyPair ∧
      ∃ m, s'.wallet = some (Wallet.fromMnemonic m (STANDARD_PATH ++ "/" ++ toString ((count - 1 : Nat) : Int))) := by
  have := getAccountsLoop8 count 0 [] s h
  simpa [getAccounts] using this

/-- C10 witness: the default count 2 on the blank state leaves the wallet
of index 1 cached while the selection and STARK key pair stay blank. -/
theorem getAccounts_overwrites_wallet_witness :
    ∃ l s', getAccounts 8 2 emptyState = (.ok l, s') ∧
      s'.activeIndex = emptyState.activeIndex ∧
      s'.activeChainId = emptyState.activeChainId ∧
      s'.starkKeyPair = emptyState.starkKeyPair ∧
      ∃ m, s'.wallet = some (Wallet.fromMnemonic m (STANDARD_PATH ++ "/" ++ toString ((2 - 1 : Nat) : Int))) :=
  getAccounts_overwrites_wallet 2 emptyState (by decide)

end TestWallet
